import Mathlib

/-!
# Guest-account lifecycle of the opencollective-api excerpt

Shallow embedding of `src/server/lib/guest-accounts.ts` and
`src/server/graphql/v2/mutation/GuestMutations.ts`.

The persistent state (the Sequelize-backed relational store) is an explicit
`Store` value holding the `Collective`, `User` and `GuestToken` rows; every
operation takes the store and returns `Except ApiError α × Store`.  A thrown
JS error is `.error`; since the raw Sequelize calls commit individually, an
error may leave a partially written store, except inside
`sequelize.transaction`, which is modelled by `runTransaction`: it restores
the initial store whenever the body throws.

Nondeterministic inputs of the source (`crypto.randomBytes` values, the
`uuid` slug fragment, `new Date()`) are threaded as explicit parameters
(`Fresh`, `now`).
-/

namespace GuestAccounts

/-- JSON-ish values stored in the free-form `data` metadata bag of a
collective (`data.isGuest` is a boolean; other keys may hold anything). -/
inductive JVal where
  | bool (b : Bool)
  | str (s : String)
  | num (n : Int)
deriving DecidableEq, Repr

/-- Association-list lookup, modelling reading a key of a JS object. -/
def metaGet (d : List (String × JVal)) (k : String) : Option JVal :=
  (d.find? (fun p => p.1 == k)).map (·.2)

/-- `{ ...d, k: v }`: every key of `d` kept, `k` overridden or added. -/
def metaSet (d : List (String × JVal)) (k : String) (v : JVal) : List (String × JVal) :=
  if d.any (fun p => p.1 == k) then
    d.map (fun p => if p.1 == k then (k, v) else p)
  else
    d ++ [(k, v)]

/-- A `Collective` row (the spec's Account). `deletedAt` is the paranoid
soft-delete timestamp: `none` means the row is live. -/
structure Collective where
  id : Nat
  ctype : String
  slug : String
  name : String
  data : List (String × JVal)
  address : Option String
  countryISO : Option String
  createdByUserId : Option Nat
  deletedAt : Option Nat
deriving DecidableEq, Repr

/-- A `User` row. `confirmedAt = none` until the email is confirmed;
`emailConfirmationToken` is cleared when consumed. -/
structure User where
  id : Nat
  email : String
  confirmedAt : Option Nat
  emailConfirmationToken : Option String
  collectiveId : Nat
deriving DecidableEq, Repr

/-- A `GuestToken` row: opaque bearer value bound to one collective. -/
structure GuestToken where
  id : Nat
  value : String
  collectiveId : Nat
  deletedAt : Option Nat
deriving DecidableEq, Repr

/-- The relational store. `nextId` supplies fresh primary keys. -/
structure Store where
  collectives : List Collective
  users : List User
  guestTokens : List GuestToken
  nextId : Nat
deriving DecidableEq, Repr

/-- The random values the source draws (`crypto.randomBytes(48)` twice and
the `uuid()` fragment used for the slug), passed in explicitly. -/
structure Fresh where
  emailConfirmationToken : String
  guestToken : String
  slugPart : String
deriving DecidableEq, Repr

/-- Errors thrown by the handlers, by JS error class. -/
inductive ApiError where
  | plain (msg : String)                -- `new Error(msg)`
  | badRequest (msg : String)           -- `BadRequest`
  | notFound (msg : String)             -- `NotFound`
  | invalidToken (msg : String)         -- `InvalidToken`
  | rateLimitExceeded (msg : String)    -- `RateLimitExceeded`
  | nullDereference                     -- JS TypeError reading a field of null
deriving DecidableEq, Repr

/-- Result triple returned by the guest-profile operations. -/
structure GuestProfileDetails where
  user : User
  collective : Collective
  token : GuestToken
deriving DecidableEq, Repr

/-- JS whitespace characters recognised by `String.prototype.trim`
(restricted to the common ASCII ones). -/
def isJsWhitespace (c : Char) : Bool :=
  c = ' ' || c = '\t' || c = '\n' || c = '\r'

/-- JS `String.prototype.trim`: strip leading and trailing whitespace. -/
def jsTrim (s : String) : String :=
  String.mk (((s.data.dropWhile isJsWhitespace).reverse.dropWhile isJsWhitespace).reverse)

/-- JS `String.prototype.toLowerCase` (character-wise lowering). -/
def jsToLower (s : String) : String :=
  String.mk (s.data.map Char.toLower)

/-- JS string truthiness for an optional string argument: `undefined`,
`null` and `""` are falsy. -/
def strTruthy : Option String → Bool
  | none => false
  | some s => s ≠ ""

def INVALID_TOKEN_MSG : String :=
  "Your guest token is invalid. If you already have an account, please sign in."

def DEFAULT_GUEST_NAME : String := "Guest"

def ALREADY_EXISTS_MSG : String :=
  "An account already exists for this email, please sign in."

/-- `models.User.findOne({ where: { email } })`: first user row with that
exact email. -/
def findUserByEmail (s : Store) (email : String) : Option User :=
  s.users.find? (fun u => u.email == email)

/-- Live (non-soft-deleted) collective by id, as the paranoid default scope
returns it. -/
def findCollectiveById (s : Store) (id : Nat) : Option Collective :=
  s.collectives.find? (fun c => c.id == id && c.deletedAt == none)

/-- `models.User.findOne({ where: { CollectiveId } })`. -/
def findUserByCollectiveId (s : Store) (cid : Nat) : Option User :=
  s.users.find? (fun u => u.collectiveId == cid)

/-- Live guest token by opaque value. -/
def findGuestTokenByValue (s : Store) (v : String) : Option GuestToken :=
  s.guestTokens.find? (fun t => t.value == v && t.deletedAt == none)

/-- `models.User.findOne({ where: { emailConfirmationToken } })`. -/
def findUserByEmailConfirmationToken (s : Store) (ect : String) : Option User :=
  s.users.find? (fun u => u.emailConfirmationToken == some ect)

/-- Persist an in-place `collective.update(...)`: replace the row with the
same id. -/
def replaceCollective (s : Store) (c : Collective) : Store :=
  { s with collectives := s.collectives.map (fun x => if x.id == c.id then c else x) }

/-- Persist a `user.update(...)`. -/
def replaceUser (s : Store) (u : User) : Store :=
  { s with users := s.users.map (fun x => if x.id == u.id then u else x) }

/-- `sequelize.transaction(body)`: if the body throws, every write it made
is rolled back and the caller observes the initial store. -/
def runTransaction (s : Store) (body : Store → Except ApiError α × Store) :
    Except ApiError α × Store :=
  match body s with
  | (.error e, _) => (.error e, s)
  | (.ok a, s') => (.ok a, s')

/-!
## `loadGuestToken` (guest-accounts.ts:29-47)
-/

/-- `loadGuestToken`: look the token up by value (the `required: true`
include means a token whose collective is deleted is not returned), then the
user owning the collective. -/
def loadGuestToken (s : Store) (guestToken : String) :
    Except ApiError GuestProfileDetails :=
  match findGuestTokenByValue s guestToken with
  | none => .error (.plain INVALID_TOKEN_MSG)
  | some token =>
    match findCollectiveById s token.collectiveId with
    | none => .error (.plain INVALID_TOKEN_MSG)
    | some collective =>
      match findUserByCollectiveId s collective.id with
      | none => .error (.plain INVALID_TOKEN_MSG)
      | some user => .ok ⟨user, collective, token⟩

/-!
## `createGuestProfile` (guest-accounts.ts:49-101)
-/

/-- The public guest collective created by `models.Collective.create` at
guest-accounts.ts:63-73. -/
def newGuestCollective (s : Store) (name : Option String)
    (location : Option (Option String × Option String)) (fresh : Fresh) : Collective :=
  { id := s.nextId
    ctype := "USER"
    slug := "guest-" ++ fresh.slugPart
    name := name.getD DEFAULT_GUEST_NAME
    data := [("isGuest", .bool true)]
    address := location.bind (·.2)
    countryISO := location.bind (·.1)
    createdByUserId := none
    deletedAt := none }

/-- The tail of the transaction body (guest-accounts.ts:92-99): bind the
creating user to the collective (`collective.update({ CreatedByUserId })`)
and create the guest token. -/
def finishGuestProfile (s2 : Store) (collective : Collective) (user : User)
    (fresh : Fresh) : Except ApiError GuestProfileDetails × Store :=
  let collective' := { collective with createdByUserId := some user.id }
  let s3 := replaceCollective s2 collective'
  let token : GuestToken :=
    { id := s3.nextId, value := fresh.guestToken
      collectiveId := collective.id, deletedAt := none }
  (.ok ⟨user, collective', token⟩,
    { s3 with guestTokens := s3.guestTokens ++ [token], nextId := s3.nextId + 1 })

/-- The unconfirmed user row created by `models.User.create` at
guest-accounts.ts:78-86 for a fresh email.  Its id is the next free id
after the collective's (`s.nextId`), and it is bound to the new
collective. -/
def newGuestUser (s : Store) (email : Option String) (fresh : Fresh) : User :=
  { id := s.nextId + 1
    email := email.getD ""
    confirmedAt := none
    emailConfirmationToken := some fresh.emailConfirmationToken
    collectiveId := s.nextId }

/-- The body of the `sequelize.transaction` in `createGuestProfile`:
create the collective, find-or-create the user (rejecting a confirmed one),
bind `CreatedByUserId`, create the guest token.  Writes are threaded so a
throw leaves the partial state visible to the transaction wrapper. -/
def createGuestProfileBody (s : Store) (email : Option String)
    (name : Option String) (location : Option (Option String × Option String))
    (fresh : Fresh) : Except ApiError GuestProfileDetails × Store :=
  let collective := newGuestCollective s name location fresh
  let s1 : Store :=
    { s with collectives := s.collectives ++ [collective], nextId := s.nextId + 1 }
  match findUserByEmail s1 (email.getD "") with
  | none =>
    let user := newGuestUser s email fresh
    finishGuestProfile { s1 with users := s1.users ++ [user], nextId := s1.nextId + 1 }
      collective user fresh
  | some user =>
    if user.confirmedAt.isSome then
      -- "We only allow to re-use the same User without token if it's not verified."
      (.error (.plain ALREADY_EXISTS_MSG), s1)
    else
      finishGuestProfile s1 collective user fresh

/-- `createGuestProfile`: the email presence check happens before the
transaction; the creation itself is atomic. `location` is the
`(country, address)` pair. -/
def createGuestProfile (s : Store) (email : Option String)
    (name : Option String) (location : Option (Option String × Option String))
    (fresh : Fresh) : Except ApiError GuestProfileDetails × Store :=
  if !strTruthy email then
    (.error (.plain "An email is required to create a guest profile"), s)
  else
    runTransaction s (fun st => createGuestProfileBody st email name location fresh)

/-!
## `updateCollective` (guest-accounts.ts:106-123)
-/

/-- The `fieldsToUpdate` object built by `updateCollective`: a field is
included only when the supplied value is truthy (non-empty) and differs from
the stored value. `location` is the `(country, address)` pair. -/
def collectiveFieldsToUpdate (c : Collective) (name : Option String)
    (location : Option (Option String × Option String)) :
    Option String × Option String × Option String :=
  let nameUpd :=
    if strTruthy name && c.name != name.getD "" then some (name.getD "") else none
  let countryUpd :=
    match location with
    | none => none
    | some loc =>
      if strTruthy loc.1 && loc.1 != c.countryISO then loc.1 else none
  let addressUpd :=
    match location with
    | none => none
    | some loc =>
      if strTruthy loc.2 && loc.2 != c.address then loc.2 else none
  (nameUpd, countryUpd, addressUpd)

/-- `updateCollective`: apply `fieldsToUpdate` to the collective;
`isEmpty(fieldsToUpdate)` means no update call is issued at all. -/
def updateCollective (c : Collective) (name : Option String)
    (location : Option (Option String × Option String)) : Collective :=
  match collectiveFieldsToUpdate c name location with
  | (none, none, none) => c
  | (nameUpd, countryUpd, addressUpd) =>
    { c with
      name := nameUpd.getD c.name
      countryISO := countryUpd.orElse (fun _ => c.countryISO)
      address := addressUpd.orElse (fun _ => c.address) }

/-!
## `getGuestProfileFromToken` (guest-accounts.ts:128-147) and
## `getOrCreateGuestProfile` (guest-accounts.ts:152-172)
-/

/-- `getGuestProfileFromToken`: resolve the token; a confirmed user must
sign in; a truthy email differing from the token user's email (supplied
email trimmed, compared exactly otherwise) abandons the token and falls
through to `createGuestProfile`; else backfill the profile and reuse it. -/
def getGuestProfileFromToken (s : Store) (tokenValue : String)
    (email name : Option String) (location : Option (Option String × Option String))
    (fresh : Fresh) : Except ApiError GuestProfileDetails × Store :=
  match loadGuestToken s tokenValue with
  | .error e => (.error e, s)
  | .ok d =>
    if d.user.confirmedAt.isSome then
      (.error (.plain ALREADY_EXISTS_MSG), s)
    else if strTruthy email && d.user.email != jsTrim (email.getD "") then
      -- "the behavior is to ignore the existing guest profile and to create a new one"
      createGuestProfile s email name location fresh
    else
      let c' := updateCollective d.collective name location
      (.ok ⟨d.user, c', d.token⟩, replaceCollective s c')

/-- `getOrCreateGuestProfile`: dispatch on the presence of a guest token. -/
def getOrCreateGuestProfile (s : Store) (email token name : Option String)
    (location : Option (Option String × Option String)) (fresh : Fresh) :
    Except ApiError GuestProfileDetails × Store :=
  if strTruthy token then
    getGuestProfileFromToken s (token.getD "") email name location fresh
  else
    createGuestProfile s email name location fresh

/-!
## `confirmGuestAccount` (guest-accounts.ts:174-230)
-/

/-- Modelled from the spec: the Account Store's slug generator
(`models.Collective.generateSlug`, whose implementation is not part of this
excerpt) derives a URL-safe slug from the name and avoids collisions with
live collectives. No claim depends on the exact slug value. -/
def generateSlug (s : Store) (name : String) : String :=
  let base := String.mk ((jsToLower name).data.map (fun ch => if ch = ' ' then '-' else ch))
  if s.collectives.any (fun c => c.slug == base && c.deletedAt == none) then
    base ++ "-1"
  else
    base

/-- Modelled from the spec: the Account Merge Service (`mergeCollectives`
from `./collectivelib`, whose implementation is not part of this excerpt)
folds the source account into the target — migrating its records — and
soft-deletes the source account. -/
def mergeCollectives (s : Store) (source : Collective) (_target : Collective)
    (now : Nat) : Store :=
  { s with collectives :=
      s.collectives.map (fun c => if c.id == source.id then { c with deletedAt := some now } else c) }

/-- The `findAll` of guest tokens at guest-accounts.ts:204-216: live tokens
whose value appears in the supplied list and whose (required-include, hence
live) collective is guest-flagged and is not the confirmed collective. -/
def findLinkableGuestTokens (s : Store) (values : List String) (excludeId : Nat) :
    List GuestToken :=
  s.guestTokens.filter (fun t =>
    t.deletedAt == none && values.contains t.value &&
      (s.collectives.any (fun c =>
        c.id == t.collectiveId && c.deletedAt == none && c.id != excludeId &&
          metaGet c.data "isGuest" == some (.bool true))))

/-- `GuestToken.destroy({ where: { CollectiveId: { in: ids } } })`: paranoid
soft delete of every live token owned by one of the ids. -/
def destroyGuestTokensByCollectiveIds (s : Store) (ids : List Nat) (now : Nat) : Store :=
  { s with guestTokens :=
      s.guestTokens.map (fun t =>
        if ids.contains t.collectiveId && t.deletedAt == none then
          { t with deletedAt := some now }
        else t) }

/-- `confirmGuestAccount` (the library function): look the user up by email
confirmation token, reject unknown tokens and already-confirmed users, mark
confirmed, rename/reslug/unflag the collective, merge the collectives of the
supplied linkable guest tokens, then soft-delete every guest token of the
confirmed collective and of each merged collective.  Not wrapped in a
transaction in the source. -/
def confirmGuestAccountLib (s : Store) (emailConfirmationToken : String)
    (name : Option String) (guestTokensValues : Option (List String)) (now : Nat) :
    Except ApiError Collective × Store :=
  match findUserByEmailConfirmationToken s emailConfirmationToken with
  | none => (.error (.invalidToken "Invalid email confirmation token"), s)
  | some user =>
    if user.confirmedAt.isSome then
      (.error (.badRequest "This account has already been verified"), s)
    else
      let s1 := replaceUser s { user with emailConfirmationToken := none, confirmedAt := some now }
      match findCollectiveById s1 user.collectiveId with
      | none => (.error .nullDereference, s1)  -- `userCollective.name` on null would crash
      | some userCollective =>
        let newName :=
          name.getD (if userCollective.name ≠ DEFAULT_GUEST_NAME then userCollective.name else "Incognito")
        let userCollective' :=
          { userCollective with
            name := newName
            slug := generateSlug s1 newName
            data := metaSet userCollective.data "isGuest" (.bool false) }
        let s2 := replaceCollective s1 userCollective'
        let linked :=
          match guestTokensValues with
          | some values => if values.length ≠ 0 then findLinkableGuestTokens s2 values userCollective.id else []
          | none => []
        let allCollectiveIds := userCollective.id :: linked.map (·.collectiveId)
        let s3 := linked.foldl
          (fun acc t =>
            match findCollectiveById acc t.collectiveId with
            | some src => mergeCollectives acc src userCollective' now
            | none => acc)
          s2
        let s4 := destroyGuestTokensByCollectiveIds s3 allCollectiveIds now
        (.ok userCollective', s4)

/-!
## The GraphQL resolvers (GuestMutations.ts)
-/

/-- The `confirmGuestAccount` mutation resolver (GuestMutations.ts:92-99):
reject more than 30 guest tokens, then call the library function.  The
source passes only `args.emailConfirmationToken` and `args.name` —
`args.guestTokens` is NOT forwarded (line 98), so the library receives no
token values. -/
def confirmGuestAccountResolver (s : Store) (emailConfirmationToken : String)
    (guestTokens : Option (List String)) (name : Option String) (now : Nat) :
    Except ApiError Collective × Store :=
  if (guestTokens.getD []).length > 30 then
    (.error (.plain "Cannot link more than 30 profiles at the same time"), s)
  else
    confirmGuestAccountLib s emailConfirmationToken name none now

/-- Rate-limit counter keys. The source builds the strings
`confirm_guest_account_ip_<ip>}` and
`confirm_guest_account_email_<base64 email>`; the scope tag and the embedded
value are kept, the string formatting (and injective base64 encoding) is
elided. -/
inductive RLKey where
  | ip (addr : String)
  | email (normalized : String)
deriving DecidableEq, Repr

/-- Observable effects of `sendGuestConfirmationEmail`, in order. -/
inductive GEvent where
  | rlRegister (key : RLKey)
  | userLookup (email : String)
  | emailSend (dest : String)
deriving DecidableEq, Repr

/-- The request environment of the resolver: whether a signed-in user is
attached, the caller IP, and the outcome of `RateLimit(key, …).registerCall()`
(the rate limiter is an external counter store; its verdict per key is an
oracle). -/
structure SendEnv where
  remoteUser : Bool
  ip : String
  registerCall : RLKey → Bool

/-- `models.User.findOne({ where: { email }, include: [collective, required] })`:
the required include drops users whose collective is deleted. -/
def findUserByEmailWithCollective (s : Store) (email : String) : Option User :=
  s.users.find? (fun u =>
    u.email == email && (s.collectives.any (fun c => c.id == u.collectiveId && c.deletedAt == none)))

/-- Rate-limit message for the caller-IP quota (GuestMutations.ts:37). -/
def MSG_RL_IP : String :=
  "An email has already been sent recently. Please try again in a few minutes."

/-- Rate-limit message for the per-email quota (GuestMutations.ts:50). -/
def MSG_RL_EMAIL : String :=
  "An email has already been sent for this address recently. Please check your SPAM folder, or try again in a few minutes."

/-- The `sendGuestConfirmationEmail` resolver (GuestMutations.ts:21-73),
returning the GraphQL result and the ordered trace of its effects. -/
def sendGuestConfirmationEmail (env : SendEnv) (s : Store) (emailArg : String) :
    Except ApiError Bool × List GEvent :=
  if env.remoteUser then
    (.error (.badRequest "You're signed in, which means your account is already verified. Sign out first if you want to verify another account."), [])
  else
    let ipKey := RLKey.ip env.ip
    if !env.registerCall ipKey then
      (.error (.rateLimitExceeded MSG_RL_IP), [.rlRegister ipKey])
    else
      let email := jsToLower (jsTrim emailArg)
      let emailKey := RLKey.email email
      if !env.registerCall emailKey then
        (.error (.rateLimitExceeded MSG_RL_EMAIL),
          [.rlRegister ipKey, .rlRegister emailKey])
      else
        match findUserByEmailWithCollective s email with
        | none =>
          (.error (.notFound "No user found for this email address"),
            [.rlRegister ipKey, .rlRegister emailKey, .userLookup email])
        | some user =>
          if user.confirmedAt.isSome then
            (.error (.badRequest "This account has already been confirmed"),
              [.rlRegister ipKey, .rlRegister emailKey, .userLookup email])
          else
            (.ok true,
              [.rlRegister ipKey, .rlRegister emailKey, .userLookup email, .emailSend user.email])

/-!
## Sample data for concrete evaluations
-/

/-- A guest collective owned by the user holding confirmation token `"ct"`. -/
def cA : Collective :=
  { id := 10, ctype := "USER", slug := "guest-aaa", name := "Guest"
    data := [("isGuest", .bool true), ("hideFromSearch", .bool true)]
    address := none, countryISO := none, createdByUserId := some 1, deletedAt := none }

/-- A second, independent guest collective. -/
def cB : Collective :=
  { cA with id := 20, slug := "guest-bbb", createdByUserId := some 2 }

/-- The unconfirmed user of `cA`. -/
def uA : User :=
  { id := 1, email := "a@b.com", confirmedAt := none
    emailConfirmationToken := some "ct", collectiveId := 10 }

/-- The unconfirmed user of `cB`. -/
def uB : User :=
  { id := 2, email := "c@d.com", confirmedAt := none
    emailConfirmationToken := some "ct2", collectiveId := 20 }

/-- Live guest token of `cA`. -/
def tA : GuestToken := { id := 100, value := "gt1", collectiveId := 10, deletedAt := none }

/-- Live guest token of `cB`. -/
def tB : GuestToken := { id := 101, value := "gt2", collectiveId := 20, deletedAt := none }

/-- A store holding the two guest profiles. -/
def sampleStore : Store :=
  { collectives := [cA, cB], users := [uA, uB], guestTokens := [tA, tB], nextId := 200 }

/-- Fixed random draws for concrete runs. -/
def sampleFresh : Fresh :=
  { emailConfirmationToken := "newect", guestToken := "newgt", slugPart := "xyz" }

/-!
## Helper lemmas
-/

/-- `find?` is unchanged by mapping a function that fixes every element
satisfying the predicate and never changes the predicate's verdict. -/
theorem find?_map_of_fix {α : Type} (p : α → Bool) (f : α → α) (l : List α)
    (hf : ∀ x, p (f x) = p x) (hfix : ∀ x, p x = true → f x = x) :
    (l.map f).find? p = l.find? p := by
  induction l with
  | nil => rfl
  | cons a l ih =>
    simp only [List.map_cons, List.find?_cons, hf a]
    cases hpa : p a with
    | false => exact ih
    | true => rw [hfix a hpa]

/-- Inversion of a successful `loadGuestToken`. -/
theorem loadGuestToken_ok_inv {s : Store} {tok : String} {d : GuestProfileDetails}
    (h : loadGuestToken s tok = .ok d) :
    findGuestTokenByValue s tok = some d.token ∧
    findCollectiveById s d.token.collectiveId = some d.collective ∧
    findUserByCollectiveId s d.collective.id = some d.user := by
  unfold loadGuestToken at h
  split at h
  · simp at h
  next t ht =>
    split at h
    · simp at h
    next c hc =>
      split at h
      · simp at h
      next u hu =>
        cases h
        exact ⟨ht, hc, hu⟩

/-- The rows of a successfully resolved guest token are rows of the store. -/
theorem loadGuestToken_ok_mem {s : Store} {tok : String} {d : GuestProfileDetails}
    (h : loadGuestToken s tok = .ok d) :
    d.token ∈ s.guestTokens ∧ d.collective ∈ s.collectives ∧ d.user ∈ s.users := by
  obtain ⟨h1, h2, h3⟩ := loadGuestToken_ok_inv h
  exact ⟨List.mem_of_find?_eq_some h1, List.mem_of_find?_eq_some h2,
    List.mem_of_find?_eq_some h3⟩

/-- A successfully resolved guest token is live and owned by the resolved,
live collective. -/
theorem loadGuestToken_ok_fields {s : Store} {tok : String} {d : GuestProfileDetails}
    (h : loadGuestToken s tok = .ok d) :
    d.token.value = tok ∧ d.token.deletedAt = none ∧
    d.collective.id = d.token.collectiveId ∧ d.collective.deletedAt = none := by
  obtain ⟨h1, h2, _⟩ := loadGuestToken_ok_inv h
  have p1 := List.find?_some h1
  have p2 := List.find?_some h2
  simp only [Bool.and_eq_true, beq_iff_eq] at p1 p2
  exact ⟨p1.1, p1.2, p2.1, p2.2⟩

/-- Replacing a user leaves collective lookups untouched. -/
theorem findCollectiveById_replaceUser (s : Store) (u : User) (i : Nat) :
    findCollectiveById (replaceUser s u) i = findCollectiveById s i := rfl

/-- What `finishGuestProfile` computes, spelled out. -/
theorem finishGuestProfile_eq (s2 : Store) (collective : Collective) (user : User)
    (fresh : Fresh) :
    finishGuestProfile s2 collective user fresh =
      (.ok ⟨user, { collective with createdByUserId := some user.id },
            { id := s2.nextId, value := fresh.guestToken
              collectiveId := collective.id, deletedAt := none }⟩,
        { s2 with
          collectives := s2.collectives.map
            (fun x => if x.id == collective.id then { collective with createdByUserId := some user.id } else x)
          guestTokens := s2.guestTokens ++
            [{ id := s2.nextId, value := fresh.guestToken
               collectiveId := collective.id, deletedAt := none }]
          nextId := s2.nextId + 1 }) := rfl

/-- Changing only the collectives/nextId of a store does not affect user
lookup by email. -/
theorem findUserByEmail_set_collectives (s : Store) (cs : List Collective) (n : Nat)
    (e : String) :
    findUserByEmail { s with collectives := cs, nextId := n } e = findUserByEmail s e := rfl

/-- The transaction body when no user exists for the email: create the
collective, the user and the token. -/
theorem createGuestProfileBody_eq_new (s : Store) (email name : Option String)
    (location : Option (Option String × Option String)) (fresh : Fresh)
    (hfind : findUserByEmail s (email.getD "") = none) :
    createGuestProfileBody s email name location fresh =
      finishGuestProfile
        { s with collectives := s.collectives ++ [newGuestCollective s name location fresh]
                 users := s.users ++ [newGuestUser s email fresh]
                 nextId := s.nextId + 1 + 1 }
        (newGuestCollective s name location fresh) (newGuestUser s email fresh) fresh := by
  simp only [createGuestProfileBody, findUserByEmail_set_collectives, hfind]

/-- The transaction body when an unconfirmed user owns the email: reuse the
user, still creating a fresh collective and token. -/
theorem createGuestProfileBody_eq_reuse (s : Store) (email name : Option String)
    (location : Option (Option String × Option String)) (fresh : Fresh) (u : User)
    (hfind : findUserByEmail s (email.getD "") = some u)
    (hconf : u.confirmedAt.isSome = false) :
    createGuestProfileBody s email name location fresh =
      finishGuestProfile
        { s with collectives := s.collectives ++ [newGuestCollective s name location fresh]
                 nextId := s.nextId + 1 }
        (newGuestCollective s name location fresh) u fresh := by
  simp only [createGuestProfileBody, findUserByEmail_set_collectives, hfind, hconf]
  simp

/-- The transaction body when a confirmed user owns the email: throw, with
the freshly created collective still in the (not yet rolled back) store. -/
theorem createGuestProfileBody_eq_confirmed (s : Store) (email name : Option String)
    (location : Option (Option String × Option String)) (fresh : Fresh) (u : User)
    (hfind : findUserByEmail s (email.getD "") = some u)
    (hconf : u.confirmedAt.isSome = true) :
    createGuestProfileBody s email name location fresh =
      (.error (.plain ALREADY_EXISTS_MSG),
        { s with collectives := s.collectives ++ [newGuestCollective s name location fresh]
                 nextId := s.nextId + 1 }) := by
  simp only [createGuestProfileBody, findUserByEmail_set_collectives, hfind, hconf]
  simp

/-- A successful `createGuestProfile` returns a collective carrying the
fresh id. -/
theorem createGuestProfile_ok_collective_id {s : Store} {email name : Option String}
    {location : Option (Option String × Option String)} {fresh : Fresh}
    {d : GuestProfileDetails} {s' : Store}
    (h : createGuestProfile s email name location fresh = (.ok d, s')) :
    d.collective.id = s.nextId := by
  unfold createGuestProfile at h
  by_cases he : strTruthy email
  · rw [if_neg (by simp [he])] at h
    unfold runTransaction at h
    simp only [] at h
    cases hfind : findUserByEmail s (email.getD "") with
    | none =>
      rw [createGuestProfileBody_eq_new s email name location fresh hfind,
        finishGuestProfile_eq] at h
      cases h
      rfl
    | some u =>
      cases hconf : u.confirmedAt.isSome with
      | true =>
        rw [createGuestProfileBody_eq_confirmed s email name location fresh u hfind hconf] at h
        simp at h
      | false =>
        rw [createGuestProfileBody_eq_reuse s email name location fresh u hfind hconf,
          finishGuestProfile_eq] at h
        cases h
        rfl
  · rw [if_pos (by simp [he])] at h
    simp at h

/-!
## Claim theorems
-/

/-- All-or-nothing outcome of a guest-profile creation attempt relative to
the initial store `s`: either the returned collective, user and token are
all persisted and correctly linked, or the store is exactly the initial
one. -/
def allOrNothing (s : Store) (r : Except ApiError GuestProfileDetails × Store) : Prop :=
  match r with
  | (.ok d, s') =>
    d.collective ∈ s'.collectives ∧ d.user ∈ s'.users ∧ d.token ∈ s'.guestTokens ∧
    d.token.collectiveId = d.collective.id ∧ d.collective.createdByUserId = some d.user.id
  | (.error _, s') => s' = s

/-- C4: guest-profile creation is all-or-nothing: every creation attempt
either persists the new collective, its user binding and the new guest
token together, or (on failure, e.g. a confirmed user already owning the
email, or a missing email) leaves the store exactly as it was — a
collective without its user or token is never observable. -/
theorem createGuestProfile_all_or_nothing (s : Store) (email name : Option String)
    (location : Option (Option String × Option String)) (fresh : Fresh) :
    allOrNothing s (createGuestProfile s email name location fresh) := by
  unfold createGuestProfile
  by_cases he : strTruthy email
  · rw [if_neg (by simp [he])]
    unfold runTransaction
    simp only []
    cases hfind : findUserByEmail s (email.getD "") with
    | none =>
      rw [createGuestProfileBody_eq_new s email name location fresh hfind,
        finishGuestProfile_eq]
      refine ⟨?_, ?_, ?_, rfl, rfl⟩
      · exact List.mem_map.mpr
          ⟨newGuestCollective s name location fresh,
            List.mem_append_right _ (List.mem_singleton.mpr rfl), by simp⟩
      · exact List.mem_append_right _ (List.mem_singleton.mpr rfl)
      · exact List.mem_append_right _ (List.mem_singleton.mpr rfl)
    | some u =>
      cases hconf : u.confirmedAt.isSome with
      | true =>
        rw [createGuestProfileBody_eq_confirmed s email name location fresh u hfind hconf]
        rfl
      | false =>
        rw [createGuestProfileBody_eq_reuse s email name location fresh u hfind hconf,
          finishGuestProfile_eq]
        refine ⟨?_, ?_, ?_, rfl, rfl⟩
        · exact List.mem_map.mpr
            ⟨newGuestCollective s name location fresh,
              List.mem_append_right _ (List.mem_singleton.mpr rfl), by simp⟩
        · exact List.mem_of_find?_eq_some hfind
        · exact List.mem_append_right _ (List.mem_singleton.mpr rfl)
  · rw [if_pos (by simp [he])]
    rfl

/-- C8: a `confirmGuestAccount` mutation call with more than 30 guest
tokens fails with the validation error; the result is the same for every
store and the store is returned untouched, so no store read or write takes
place before the rejection. -/
theorem confirmGuestAccountResolver_over30_rejected (s : Store) (ect : String)
    (guestTokens : List String) (name : Option String) (now : Nat)
    (h : guestTokens.length > 30) :
    confirmGuestAccountResolver s ect (some guestTokens) name now =
      (.error (.plain "Cannot link more than 30 profiles at the same time"), s) := by
  unfold confirmGuestAccountResolver
  rw [if_pos]
  simpa using h

/-- Concrete instantiation of `confirmGuestAccountResolver_over30_rejected`
at a 31-element token list. -/
theorem confirmGuestAccountResolver_over30_rejected_witness :
    (List.replicate 31 "t").length > 30 ∧
      confirmGuestAccountResolver sampleStore "ct" (some (List.replicate 31 "t")) none 0 =
        (.error (.plain "Cannot link more than 30 profiles at the same time"), sampleStore) :=
  ⟨by decide,
    confirmGuestAccountResolver_over30_rejected sampleStore "ct" (List.replicate 31 "t")
      none 0 (by decide)⟩

/-- Field-level characterization of `updateCollective`. -/
theorem updateCollective_fields (c : Collective) (name : Option String)
    (location : Option (Option String × Option String)) :
    (updateCollective c name location).id = c.id ∧
    (updateCollective c name location).name =
      (if strTruthy name && c.name != name.getD "" then name.getD "" else c.name) ∧
    (updateCollective c name location).countryISO =
      (match location with
       | none => c.countryISO
       | some loc => if strTruthy loc.1 && loc.1 != c.countryISO then loc.1 else c.countryISO) ∧
    (updateCollective c name location).address =
      (match location with
       | none => c.address
       | some loc => if strTruthy loc.2 && loc.2 != c.address then loc.2 else c.address) := by
  rcases name with _ | n
  · rcases location with _ | ⟨country, address⟩
    · simp [updateCollective, collectiveFieldsToUpdate, strTruthy]
    · rcases country with _ | cv <;> rcases address with _ | av
      · simp [updateCollective, collectiveFieldsToUpdate, strTruthy]
      · by_cases h3 : ¬av = "" ∧ ¬some av = c.address <;>
          simp [updateCollective, collectiveFieldsToUpdate, strTruthy, h3]
      · by_cases h2 : ¬cv = "" ∧ ¬some cv = c.countryISO <;>
          simp [updateCollective, collectiveFieldsToUpdate, strTruthy, h2]
      · by_cases h2 : ¬cv = "" ∧ ¬some cv = c.countryISO <;>
          by_cases h3 : ¬av = "" ∧ ¬some av = c.address <;>
            simp [updateCollective, collectiveFieldsToUpdate, strTruthy, h2, h3]
  · rcases location with _ | ⟨country, address⟩
    · by_cases h1 : ¬n = "" ∧ ¬c.name = n <;>
        simp [updateCollective, collectiveFieldsToUpdate, strTruthy, h1]
    · rcases country with _ | cv <;> rcases address with _ | av
      · by_cases h1 : ¬n = "" ∧ ¬c.name = n <;>
          simp [updateCollective, collectiveFieldsToUpdate, strTruthy, h1]
      · by_cases h1 : ¬n = "" ∧ ¬c.name = n <;>
          by_cases h3 : ¬av = "" ∧ ¬some av = c.address <;>
            simp [updateCollective, collectiveFieldsToUpdate, strTruthy, h1, h3]
      · by_cases h1 : ¬n = "" ∧ ¬c.name = n <;>
          by_cases h2 : ¬cv = "" ∧ ¬some cv = c.countryISO <;>
            simp [updateCollective, collectiveFieldsToUpdate, strTruthy, h1, h2]
      · by_cases h1 : ¬n = "" ∧ ¬c.name = n <;>
          by_cases h2 : ¬cv = "" ∧ ¬some cv = c.countryISO <;>
            by_cases h3 : ¬av = "" ∧ ¬some av = c.address <;>
              simp [updateCollective, collectiveFieldsToUpdate, strTruthy, h1, h2, h3]

/-- C9: a guest-profile request that reuses an existing token (no email, or
one matching the token user's) backfills the collective: each of name,
country and address is set to the supplied value exactly when that value is
non-empty and differs from the stored one, and a missing, empty or
identical supplied value leaves the stored field unchanged. -/
theorem getGuestProfileFromToken_monotonic_backfill (s : Store) (tokenValue : String)
    (email name : Option String) (location : Option (Option String × Option String))
    (fresh : Fresh) (d : GuestProfileDetails)
    (hload : loadGuestToken s tokenValue = .ok d)
    (hunconf : d.user.confirmedAt = none)
    (hsame : (strTruthy email && d.user.email != jsTrim (email.getD "")) = false) :
    ∃ c', getGuestProfileFromToken s tokenValue email name location fresh =
        (.ok ⟨d.user, c', d.token⟩, replaceCollective s c') ∧
      c'.id = d.collective.id ∧
      (∀ n, name = some n → n ≠ "" → n ≠ d.collective.name → c'.name = n) ∧
      ((name = none ∨ name = some "") → c'.name = d.collective.name) ∧
      (name = some d.collective.name → c'.name = d.collective.name) ∧
      (∀ v, location.bind (·.1) = some v → v ≠ "" →
        some v ≠ d.collective.countryISO → c'.countryISO = some v) ∧
      ((location.bind (·.1) = none ∨ location.bind (·.1) = some "") →
        c'.countryISO = d.collective.countryISO) ∧
      (location.bind (·.1) = d.collective.countryISO →
        c'.countryISO = d.collective.countryISO) ∧
      (∀ v, location.bind (·.2) = some v → v ≠ "" →
        some v ≠ d.collective.address → c'.address = some v) ∧
      ((location.bind (·.2) = none ∨ location.bind (·.2) = some "") →
        c'.address = d.collective.address) ∧
      (location.bind (·.2) = d.collective.address → c'.address = d.collective.address) := by
  refine ⟨updateCollective d.collective name location, ?_, ?_⟩
  · unfold getGuestProfileFromToken
    rw [hload]
    simp only [hunconf, Option.isSome_none, Bool.false_eq_true, if_false, hsame]
  obtain ⟨hid, hname, hcountry, haddr⟩ := updateCollective_fields d.collective name location
  refine ⟨hid, ?_, ?_, ?_, ?_, ?_, ?_, ?_, ?_, ?_⟩
  · intro n hn hne hdiff
    subst hn
    rw [hname]
    simp [strTruthy, hne, bne_iff_ne, Ne.symm hdiff]
  · rintro (h | h) <;> subst h <;> rw [hname] <;> simp [strTruthy]
  · intro h
    subst h
    rw [hname]
    simp
  · intro v hv hne hdiff
    rcases location with _ | ⟨country, address⟩
    · simp at hv
    · simp only [Option.some_bind] at hv
      rw [hcountry]
      simp only [hv]
      simp [strTruthy, hne, bne_iff_ne, hdiff]
  · rintro (h | h) <;>
      · rcases location with _ | ⟨country, address⟩
        · rw [hcountry]
        · simp only [Option.some_bind] at h
          rw [hcountry]
          simp [h, strTruthy]
  · intro h
    rcases location with _ | ⟨country, address⟩
    · rw [hcountry]
    · simp only [Option.some_bind] at h
      rw [hcountry]
      simp [h]
  · intro v hv hne hdiff
    rcases location with _ | ⟨country, address⟩
    · simp at hv
    · simp only [Option.some_bind] at hv
      rw [haddr]
      simp only [hv]
      simp [strTruthy, hne, bne_iff_ne, hdiff]
  · rintro (h | h) <;>
      · rcases location with _ | ⟨country, address⟩
        · rw [haddr]
        · simp only [Option.some_bind] at h
          rw [haddr]
          simp [h, strTruthy]
  · intro h
    rcases location with _ | ⟨country, address⟩
    · rw [haddr]
    · simp only [Option.some_bind] at h
      rw [haddr]
      simp [h]

/-- Concrete instantiation of `getGuestProfileFromToken_monotonic_backfill`:
reusing token `"gt1"` with the same email backfills the name and country. -/
theorem getGuestProfileFromToken_monotonic_backfill_witness :
    loadGuestToken sampleStore "gt1" = .ok ⟨uA, cA, tA⟩ ∧
    uA.confirmedAt = none ∧
    (strTruthy (some "a@b.com") && uA.email != jsTrim "a@b.com") = false ∧
    ∃ c', getGuestProfileFromToken sampleStore "gt1" (some "a@b.com") (some "Zappa")
        (some (some "FR", none)) sampleFresh =
        (.ok ⟨uA, c', tA⟩, replaceCollective sampleStore c') ∧
      c'.name = "Zappa" ∧ c'.countryISO = some "FR" := by
  refine ⟨rfl, rfl, by decide, ?_⟩
  obtain ⟨c', heq, _, hn1, _, _, hc1, _, _, _, _, _⟩ :=
    getGuestProfileFromToken_monotonic_backfill sampleStore "gt1" (some "a@b.com")
      (some "Zappa") (some (some "FR", none)) sampleFresh ⟨uA, cA, tA⟩
      rfl rfl (by decide)
  exact ⟨c', heq, hn1 "Zappa" rfl (by decide) (by decide), hc1 "FR" rfl (by decide) (by decide)⟩

/-- Mapping the key-override function over a list that contains the key
makes the overridden pair the first hit for that key. -/
theorem find?_map_override (k : String) (v : JVal) (d : List (String × JVal))
    (h : d.any (fun p => p.1 == k) = true) :
    (d.map (fun p => if p.1 == k then (k, v) else p)).find? (fun p => p.1 == k) =
      some (k, v) := by
  induction d with
  | nil => simp at h
  | cons a d ih =>
    simp only [List.any_cons, Bool.or_eq_true] at h
    rw [List.map_cons, List.find?_cons]
    by_cases ha : (a.1 == k) = true
    · rw [if_pos ha]
      have h2 : (((k, v) : String × JVal).1 == k) = true := by simp
      rw [h2]
    · rw [if_neg ha]
      have h2 : (a.1 == k) = false := by simpa using ha
      rw [h2]
      rcases h with h | h
      · exact absurd h ha
      · exact ih h

/-- Overriding a key reads back the overriding value. -/
theorem metaGet_metaSet_self (d : List (String × JVal)) (k : String) (v : JVal) :
    metaGet (metaSet d k v) k = some v := by
  unfold metaSet
  by_cases h : d.any (fun p => p.1 == k) = true
  · rw [if_pos h]
    unfold metaGet
    rw [find?_map_override k v d h]
    rfl
  · rw [if_neg h]
    unfold metaGet
    rw [List.find?_append]
    have hnone : d.find? (fun p => p.1 == k) = none := by
      rw [List.find?_eq_none]
      intro x hx hpx
      exact h (List.any_eq_true.mpr ⟨x, hx, hpx⟩)
    rw [hnone]
    simp

/-- Overriding one key leaves every other key's value unchanged. -/
theorem metaGet_metaSet_other (d : List (String × JVal)) (k k' : String) (v : JVal)
    (h : k' ≠ k) :
    metaGet (metaSet d k v) k' = metaGet d k' := by
  unfold metaSet
  by_cases hany : d.any (fun p => p.1 == k) = true
  · rw [if_pos hany]
    unfold metaGet
    have hf : ∀ x : String × JVal,
        ((fun p : String × JVal => p.1 == k') (if x.1 == k then (k, v) else x)) =
          ((fun p : String × JVal => p.1 == k') x) := by
      intro x
      by_cases hx : (x.1 == k) = true
      · have hx' : x.1 = k := by simpa using hx
        simp [hx, hx', (Ne.symm h)]
      · simp [hx]
    have hfix : ∀ x : String × JVal, ((fun p : String × JVal => p.1 == k') x) = true →
        (if x.1 == k then (k, v) else x) = x := by
      intro x hpx
      have hx' : x.1 = k' := by simpa using hpx
      have : (x.1 == k) = false := by simp [hx', h]
      simp [this]
    rw [find?_map_of_fix _ _ d hf hfix]
  · rw [if_neg hany]
    unfold metaGet
    rw [List.find?_append]
    have : List.find? (fun p : String × JVal => p.1 == k') [(k, v)] = none := by
      simp [Ne.symm h]
    rw [this]
    simp

/-- C5: a successful confirmation of an unconfirmed user returns that
user's collective with `isGuest` flipped to false, every other metadata key
preserved, and the name resolved as: the supplied name when given,
otherwise the prior name when it differs from the default guest
placeholder, otherwise the fixed label "Incognito". -/
theorem confirmGuestAccountLib_profile_update (s : Store) (ect : String)
    (name : Option String) (gtv : Option (List String)) (now : Nat)
    (u : User) (uc : Collective)
    (hfind : findUserByEmailConfirmationToken s ect = some u)
    (hunconf : u.confirmedAt = none)
    (hcoll : findCollectiveById s u.collectiveId = some uc) :
    ∃ c' s', confirmGuestAccountLib s ect name gtv now = (.ok c', s') ∧
      c'.id = uc.id ∧
      metaGet c'.data "isGuest" = some (.bool false) ∧
      (∀ k, k ≠ "isGuest" → metaGet c'.data k = metaGet uc.data k) ∧
      (∀ n, name = some n → c'.name = n) ∧
      (name = none → uc.name ≠ DEFAULT_GUEST_NAME → c'.name = uc.name) ∧
      (name = none → uc.name = DEFAULT_GUEST_NAME → c'.name = "Incognito") := by
  unfold confirmGuestAccountLib
  rw [hfind]
  simp only [hunconf, Option.isSome_none, Bool.false_eq_true, if_false,
    findCollectiveById_replaceUser, hcoll]
  refine ⟨_, _, rfl, rfl, metaGet_metaSet_self uc.data "isGuest" (.bool false),
    fun k hk => metaGet_metaSet_other uc.data "isGuest" k (.bool false) hk, ?_, ?_, ?_⟩
  · intro n hn
    subst hn
    rfl
  · intro hn hdef
    subst hn
    simp [Option.getD, hdef]
  · intro hn hdef
    subst hn
    simp [Option.getD, hdef]

/-- Concrete instantiation of `confirmGuestAccountLib_profile_update`:
confirming the sample user with no supplied name renames the
default-"Guest" collective to "Incognito" and unsets the guest flag. -/
theorem confirmGuestAccountLib_profile_update_witness :
    findUserByEmailConfirmationToken sampleStore "ct" = some uA ∧
    uA.confirmedAt = none ∧
    findCollectiveById sampleStore uA.collectiveId = some cA ∧
    ∃ c' s', confirmGuestAccountLib sampleStore "ct" none none 5 = (.ok c', s') ∧
      c'.name = "Incognito" ∧ metaGet c'.data "isGuest" = some (.bool false) := by
  refine ⟨by decide, rfl, by decide, ?_⟩
  obtain ⟨c', s', heq, _, hguest, _, _, _, hdef⟩ :=
    confirmGuestAccountLib_profile_update sampleStore "ct" none none 5 uA cA
      (by decide) rfl (by decide)
  exact ⟨c', s', heq, hdef rfl (by decide), hguest⟩

/-- Environment of an unauthenticated caller whose IP quota is exhausted. -/
def sendEnvSample : SendEnv :=
  { remoteUser := false, ip := "203.0.113.7", registerCall := fun _ => false }

/-- C7: for every unauthenticated `sendGuestConfirmationEmail` call the
effect trace starts with the caller-IP rate-limit check; the
normalized-email rate-limit check comes second; the user lookup happens
only when both checks pass; and exceeding either quota fails with
`RateLimitExceeded` with no user-store access in the trace. -/
theorem sendGuestConfirmationEmail_rate_limit_order (env : SendEnv) (s : Store)
    (emailArg : String) (h : env.remoteUser = false) :
    (sendGuestConfirmationEmail env s emailArg).2.head? =
      some (.rlRegister (.ip env.ip)) ∧
    (env.registerCall (.ip env.ip) = false →
      sendGuestConfirmationEmail env s emailArg =
        (.error (.rateLimitExceeded MSG_RL_IP), [.rlRegister (.ip env.ip)])) ∧
    (env.registerCall (.ip env.ip) = true →
      env.registerCall (.email (jsToLower (jsTrim emailArg))) = false →
      sendGuestConfirmationEmail env s emailArg =
        (.error (.rateLimitExceeded MSG_RL_EMAIL),
          [.rlRegister (.ip env.ip),
           .rlRegister (.email (jsToLower (jsTrim emailArg)))])) ∧
    (∀ e, GEvent.userLookup e ∈ (sendGuestConfirmationEmail env s emailArg).2 →
      env.registerCall (.ip env.ip) = true ∧
      env.registerCall (.email (jsToLower (jsTrim emailArg))) = true ∧
      (sendGuestConfirmationEmail env s emailArg).2.take 3 =
        [.rlRegister (.ip env.ip),
         .rlRegister (.email (jsToLower (jsTrim emailArg))),
         .userLookup (jsToLower (jsTrim emailArg))]) := by
  unfold sendGuestConfirmationEmail
  rw [h]
  simp only [Bool.false_eq_true, if_false]
  by_cases hip : env.registerCall (RLKey.ip env.ip) = true
  · by_cases hem : env.registerCall (RLKey.email (jsToLower (jsTrim emailArg))) = true
    · cases hfind : findUserByEmailWithCollective s (jsToLower (jsTrim emailArg)) with
      | none => simp [hip, hem, hfind]
      | some u =>
        by_cases hconf : u.confirmedAt.isSome = true
        · simp [hip, hem, hfind, hconf]
        · simp [hip, hem, hfind, hconf]
    · simp [hip, hem]
  · simp [hip]

/-- Concrete instantiation of `sendGuestConfirmationEmail_rate_limit_order`
at an unauthenticated caller with an exhausted IP quota: the call fails
with the IP rate-limit error after only the IP check. -/
theorem sendGuestConfirmationEmail_rate_limit_order_witness :
    sendEnvSample.remoteUser = false ∧
    sendGuestConfirmationEmail sendEnvSample sampleStore "A@B.com " =
      (.error (.rateLimitExceeded MSG_RL_IP), [.rlRegister (.ip "203.0.113.7")]) := by
  refine ⟨rfl, ?_⟩
  exact (sendGuestConfirmationEmail_rate_limit_order sendEnvSample sampleStore
    "A@B.com " rfl).2.1 rfl

/-- C1 (code bug at GuestMutations.ts:98): the mutation resolver validates
`guestTokens` but does not forward them to the library function.  With the
sample store — user `"ct"` owning collective 10, and `"gt2"` a live guest
token of the distinct guest collective 20 — the mutation succeeds yet
leaves collective 20 unmerged (still live) and its token `"gt2"` undeleted,
while the library function `confirmGuestAccount`, given the same token
values, merges (soft-deletes) collective 20 and deletes `"gt2"`. -/
theorem confirmGuestAccountResolver_drops_guestTokens :
    (∃ c, (confirmGuestAccountResolver sampleStore "ct" (some ["gt2"]) none 5).1 = .ok c) ∧
    findCollectiveById
      (confirmGuestAccountResolver sampleStore "ct" (some ["gt2"]) none 5).2 20 = some cB ∧
    findGuestTokenByValue
      (confirmGuestAccountResolver sampleStore "ct" (some ["gt2"]) none 5).2 "gt2" = some tB ∧
    findCollectiveById
      (confirmGuestAccountLib sampleStore "ct" none (some ["gt2"]) 5).2 20 = none ∧
    findGuestTokenByValue
      (confirmGuestAccountLib sampleStore "ct" none (some ["gt2"]) 5).2 "gt2" = none := by
  refine ⟨⟨_, rfl⟩, ?_, ?_, ?_, ?_⟩ <;> decide

/-- C2 is false as stated: with the sample store, requesting a guest
profile (no token) for `"a@b.com"` — the email of the existing unconfirmed
user `uA` whose account is collective 10 — succeeds but returns a
collective whose id differs from `uA`'s account, and adds a new collective
row to the store. -/
theorem getOrCreateGuestProfile_unconfirmed_new_account_counterexample :
    ∃ d s', getOrCreateGuestProfile sampleStore (some "a@b.com") none none none sampleFresh =
        (.ok d, s') ∧
      d.user = uA ∧ d.collective.id ≠ uA.collectiveId ∧
      s'.collectives.length = sampleStore.collectives.length + 1 :=
  ⟨_, _, rfl, rfl, by decide, by decide⟩

/-- C2 amended: a no-token guest-profile request for the email of an
existing unconfirmed user reuses that user row (no user is created or
modified and the request does not fail), but creates and returns a brand
new collective carrying the fresh id — the user's existing account id is
not returned. -/
theorem getOrCreateGuestProfile_unconfirmed_reuses_user_only (s : Store) (email : String)
    (name : Option String) (location : Option (Option String × Option String))
    (fresh : Fresh) (u : User)
    (hemail : email ≠ "")
    (hfind : findUserByEmail s email = some u)
    (hunconf : u.confirmedAt = none)
    (hfreshId : u.collectiveId ≠ s.nextId) :
    ∃ d s', getOrCreateGuestProfile s (some email) none name location fresh = (.ok d, s') ∧
      d.user = u ∧ s'.users = s.users ∧
      d.collective.id = s.nextId ∧ d.collective.id ≠ u.collectiveId ∧
      s'.collectives.length = s.collectives.length + 1 := by
  unfold getOrCreateGuestProfile
  rw [if_neg (by simp [strTruthy])]
  unfold createGuestProfile
  rw [if_neg (by simp [strTruthy, hemail])]
  unfold runTransaction
  simp only []
  rw [createGuestProfileBody_eq_reuse s (some email) name location fresh u hfind
      (by rw [hunconf]; rfl),
    finishGuestProfile_eq]
  refine ⟨_, _, rfl, rfl, rfl, rfl, fun hh => hfreshId hh.symm, ?_⟩
  simp

/-- Concrete instantiation of
`getOrCreateGuestProfile_unconfirmed_reuses_user_only` at the sample store
and the unconfirmed user `uB`. -/
theorem getOrCreateGuestProfile_unconfirmed_reuses_user_only_witness :
    ("c@d.com" : String) ≠ "" ∧
    findUserByEmail sampleStore "c@d.com" = some uB ∧
    uB.confirmedAt = none ∧
    uB.collectiveId ≠ sampleStore.nextId ∧
    ∃ d s', getOrCreateGuestProfile sampleStore (some "c@d.com") none none none sampleFresh =
        (.ok d, s') ∧ d.user = uB ∧ s'.users = sampleStore.users := by
  refine ⟨by decide, by decide, rfl, by decide, ?_⟩
  obtain ⟨d, s', h1, h2, h3, _⟩ :=
    getOrCreateGuestProfile_unconfirmed_reuses_user_only sampleStore "c@d.com" none none
      sampleFresh uB (by decide) (by decide) rfl (by decide)
  exact ⟨d, s', h1, h2, h3⟩

/-- C3 is false as stated: in the sample store, token `"gt1"` belongs to
the unconfirmed user with email `"a@b.com"`; supplying that token together
with `"A@b.com"` — equal modulo case after trimming — does not reuse
collective 10: the call succeeds with a collective of a different id and a
new collective row is created. -/
theorem getGuestProfileFromToken_case_only_diff_counterexample :
    ∃ d s', getOrCreateGuestProfile sampleStore (some "A@b.com") (some "gt1") none none
        sampleFresh = (.ok d, s') ∧
      d.collective.id ≠ cA.id ∧
      s'.collectives.length = sampleStore.collectives.length + 1 :=
  ⟨_, _, rfl, by decide, by decide⟩

/-- C3 amended: the reuse-or-create decision compares the supplied email
after trimming with the token user's stored email case-SENSITIVELY:
exactly-equal-after-trim emails reuse the existing account, and any other
difference — including a case-only difference — falls through to creation
and yields a new, distinct account id. -/
theorem getGuestProfileFromToken_email_cmp_case_sensitive (s : Store) (tokenValue : String)
    (email : String) (name : Option String)
    (location : Option (Option String × Option String)) (fresh : Fresh)
    (d : GuestProfileDetails)
    (hload : loadGuestToken s tokenValue = .ok d)
    (hunconf : d.user.confirmedAt = none)
    (hemail : email ≠ "")
    (hWF : d.collective.id ≠ s.nextId) :
    (d.user.email = jsTrim email →
      ∃ c', getGuestProfileFromToken s tokenValue (some email) name location fresh =
          (.ok ⟨d.user, c', d.token⟩, replaceCollective s c') ∧ c'.id = d.collective.id) ∧
    (d.user.email ≠ jsTrim email →
      ∀ d' s', getGuestProfileFromToken s tokenValue (some email) name location fresh =
          (.ok d', s') →
        d'.collective.id = s.nextId ∧ d'.collective.id ≠ d.collective.id) := by
  constructor
  · intro heq
    refine ⟨updateCollective d.collective name location, ?_,
      (updateCollective_fields d.collective name location).1⟩
    unfold getGuestProfileFromToken
    rw [hload]
    simp only [hunconf, Option.isSome_none, Bool.false_eq_true, if_false]
    rw [if_neg (by simp [heq])]
  · intro hne d' s' hcall
    unfold getGuestProfileFromToken at hcall
    rw [hload] at hcall
    simp only [hunconf, Option.isSome_none, Bool.false_eq_true, if_false] at hcall
    rw [if_pos (by simp [strTruthy, hemail, bne_iff_ne, hne])] at hcall
    have hid := createGuestProfile_ok_collective_id hcall
    exact ⟨hid, by rw [hid]; exact Ne.symm hWF⟩

/-- Concrete instantiation of
`getGuestProfileFromToken_email_cmp_case_sensitive`: the exactly-equal
email reuses collective 10. -/
theorem getGuestProfileFromToken_email_cmp_case_sensitive_witness :
    loadGuestToken sampleStore "gt1" = .ok ⟨uA, cA, tA⟩ ∧
    uA.confirmedAt = none ∧
    ("a@b.com" : String) ≠ "" ∧
    cA.id ≠ sampleStore.nextId ∧
    ∃ c', getGuestProfileFromToken sampleStore "gt1" (some "a@b.com") none none sampleFresh =
        (.ok ⟨uA, c', tA⟩, replaceCollective sampleStore c') ∧ c'.id = cA.id := by
  refine ⟨rfl, rfl, by decide, by decide, ?_⟩
  exact (getGuestProfileFromToken_email_cmp_case_sensitive sampleStore "gt1" "a@b.com"
    none none sampleFresh ⟨uA, cA, tA⟩ rfl rfl (by decide) (by decide)).1 (by decide)

/-- A confirmed (non-guest) profile. -/
def cC : Collective :=
  { cA with id := 30, slug := "carol", name := "Carol"
            data := [("isGuest", .bool false)], createdByUserId := some 3 }

/-- The confirmed user owning `cC`. -/
def uC : User :=
  { id := 3, email := "e@f.com", confirmedAt := some 1
    emailConfirmationToken := none, collectiveId := 30 }

/-- A store holding a guest profile and a confirmed profile. -/
def confirmedStore : Store :=
  { collectives := [cA, cC], users := [uA, uC], guestTokens := [tA], nextId := 300 }

/-- C6: a guest-profile request whose (trimmed, non-empty) email belongs to
an existing confirmed user fails with the "already exists, sign in" error
and leaves the store untouched — both when no (or an empty) guest token is
supplied and when a valid guest token is supplied, provided user emails are
unique in the store. -/
theorem getOrCreateGuestProfile_confirmed_email_rejected (s : Store) (email : String)
    (token name : Option String) (location : Option (Option String × Option String))
    (fresh : Fresh) (u : User)
    (hfind : findUserByEmail s email = some u)
    (hconf : u.confirmedAt.isSome = true)
    (hemail : email ≠ "")
    (htrim : jsTrim email = email)
    (huniq : ∀ v ∈ s.users, ∀ w ∈ s.users, v.email = w.email → v = w)
    (htok : strTruthy token = false ∨ ∃ dd, loadGuestToken s (token.getD "") = .ok dd) :
    getOrCreateGuestProfile s (some email) token name location fresh =
      (.error (.plain ALREADY_EXISTS_MSG), s) := by
  have hcreate : createGuestProfile s (some email) name location fresh =
      (.error (.plain ALREADY_EXISTS_MSG), s) := by
    unfold createGuestProfile
    rw [if_neg (by simp [strTruthy, hemail])]
    unfold runTransaction
    simp only []
    rw [createGuestProfileBody_eq_confirmed s (some email) name location fresh u hfind hconf]
  unfold getOrCreateGuestProfile
  by_cases ht : strTruthy token = true
  · rw [if_pos ht]
    rcases htok with hf | ⟨dd, hdd⟩
    · rw [hf] at ht
      exact absurd ht (by simp)
    · unfold getGuestProfileFromToken
      rw [hdd]
      by_cases hdc : dd.user.confirmedAt.isSome = true
      · simp [hdc]
      · have hdc' : dd.user.confirmedAt.isSome = false := by simpa using hdc
        simp only [hdc', Bool.false_eq_true, if_false]
        have hmem : dd.user ∈ s.users := (loadGuestToken_ok_mem hdd).2.2
        have humem : u ∈ s.users := List.mem_of_find?_eq_some hfind
        have hue : u.email = email := by simpa using List.find?_some hfind
        have hne : dd.user.email ≠ email := by
          intro hh
          have heq : dd.user = u := huniq _ hmem _ humem (hh.trans hue.symm)
          rw [heq] at hdc
          exact hdc hconf
        rw [if_pos (by simp [strTruthy, hemail, htrim, bne_iff_ne, hne])]
        exact hcreate
  · rw [if_neg ht]
    exact hcreate

/-- Concrete instantiations of
`getOrCreateGuestProfile_confirmed_email_rejected`: the confirmed user's
email is rejected on the no-token path. -/
theorem getOrCreateGuestProfile_confirmed_email_rejected_witness :
    findUserByEmail confirmedStore "e@f.com" = some uC ∧
    uC.confirmedAt.isSome = true ∧
    ("e@f.com" : String) ≠ "" ∧
    jsTrim "e@f.com" = "e@f.com" ∧
    (∀ v ∈ confirmedStore.users, ∀ w ∈ confirmedStore.users, v.email = w.email → v = w) ∧
    getOrCreateGuestProfile confirmedStore (some "e@f.com") none none none sampleFresh =
      (.error (.plain ALREADY_EXISTS_MSG), confirmedStore) := by
  refine ⟨by decide, rfl, by decide, by decide, by decide, ?_⟩
  exact getOrCreateGuestProfile_confirmed_email_rejected confirmedStore "e@f.com" none none
    none sampleFresh uC (by decide) rfl (by decide) (by decide) (by decide) (Or.inl rfl)

/-- `loadGuestToken` still resolves to the same rows in a store whose
collectives are the old ones (plus a fresh-id one, with only the fresh id
rewritten) and whose user/token lists still yield the old rows first. -/
theorem loadGuestToken_after_create (s : Store) (tok : String) (d : GuestProfileDetails)
    (hload : loadGuestToken s tok = .ok d)
    (hWFc : ∀ c ∈ s.collectives, c.id ≠ s.nextId)
    (newCol newCol' : Collective) (hnewId : newCol.id = s.nextId)
    (hnewId' : newCol'.id = s.nextId)
    (usersNew : List User) (tokensNew : List GuestToken) (n : Nat)
    (husers : usersNew.find? (fun u => u.collectiveId == d.collective.id) = some d.user)
    (htokens : tokensNew.find? (fun t => t.value == tok && t.deletedAt == none) =
      some d.token) :
    loadGuestToken
      { collectives := (s.collectives ++ [newCol]).map
          (fun x => if x.id == newCol.id then newCol' else x)
        users := usersNew
        guestTokens := tokensNew
        nextId := n } tok = .ok d := by
  obtain ⟨h1, h2, h3⟩ := loadGuestToken_ok_inv hload
  obtain ⟨hT, hC, hU⟩ := loadGuestToken_ok_mem hload
  obtain ⟨_, _, hcid, _⟩ := loadGuestToken_ok_fields hload
  have htarget : d.token.collectiveId ≠ s.nextId := by
    rw [← hcid]
    exact hWFc _ hC
  have hfindC : findCollectiveById
      { collectives := (s.collectives ++ [newCol]).map
          (fun x => if x.id == newCol.id then newCol' else x)
        users := usersNew
        guestTokens := tokensNew
        nextId := n } d.token.collectiveId = some d.collective := by
    unfold findCollectiveById at h2 ⊢
    have hf : ∀ x : Collective,
        ((fun c : Collective => c.id == d.token.collectiveId && c.deletedAt == none)
          (if x.id == newCol.id then newCol' else x)) =
        ((fun c : Collective => c.id == d.token.collectiveId && c.deletedAt == none) x) := by
      intro x
      by_cases hx : (x.id == newCol.id) = true
      · have hx' : x.id = newCol.id := by simpa using hx
        have e1 : (newCol'.id == d.token.collectiveId) = false := by
          rw [hnewId']
          exact beq_eq_false_iff_ne.mpr (Ne.symm htarget)
        have e2 : (x.id == d.token.collectiveId) = false := by
          rw [hx', hnewId]
          exact beq_eq_false_iff_ne.mpr (Ne.symm htarget)
        simp [hx, e1, e2]
      · simp [hx]
    have hfix : ∀ x : Collective,
        ((fun c : Collective => c.id == d.token.collectiveId && c.deletedAt == none) x) = true →
        (if x.id == newCol.id then newCol' else x) = x := by
      intro x hpx
      simp only [Bool.and_eq_true, beq_iff_eq] at hpx
      have : (x.id == newCol.id) = false := by
        rw [hpx.1, hnewId]
        exact beq_eq_false_iff_ne.mpr htarget
      simp [this]
    rw [find?_map_of_fix _ _ _ hf hfix, List.find?_append, h2]
    rfl
  unfold loadGuestToken
  unfold findGuestTokenByValue
  rw [htokens]
  simp only []
  rw [hfindC]
  unfold findUserByCollectiveId
  simp only [husers]

/-- C10: when a valid token of an unconfirmed user is supplied together
with a non-empty email that differs (after trimming) from the token user's
email — the session-abandonment fallthrough — the original token's
collective, user and guest-token rows are still present unchanged in the
resulting store, and the old guest token still resolves to exactly the same
profile afterwards (it is neither deleted nor rebound). -/
theorem getGuestProfileFromToken_fallthrough_frame (s : Store) (tokenValue : String)
    (email : String) (name : Option String)
    (location : Option (Option String × Option String)) (fresh : Fresh)
    (d : GuestProfileDetails)
    (hload : loadGuestToken s tokenValue = .ok d)
    (hunconf : d.user.confirmedAt = none)
    (hemail : email ≠ "")
    (hdiff : d.user.email ≠ jsTrim email)
    (hWF : ∀ c ∈ s.collectives, c.id ≠ s.nextId) :
    d.token ∈
      (getGuestProfileFromToken s tokenValue (some email) name location fresh).2.guestTokens ∧
    d.collective ∈
      (getGuestProfileFromToken s tokenValue (some email) name location fresh).2.collectives ∧
    d.user ∈
      (getGuestProfileFromToken s tokenValue (some email) name location fresh).2.users ∧
    loadGuestToken
      (getGuestProfileFromToken s tokenValue (some email) name location fresh).2
      tokenValue = .ok d := by
  obtain ⟨h1, h2, h3⟩ := loadGuestToken_ok_inv hload
  obtain ⟨hT, hC, hU⟩ := loadGuestToken_ok_mem hload
  have h1' : s.guestTokens.find? (fun t => t.value == tokenValue && t.deletedAt == none) =
      some d.token := h1
  have h3' : s.users.find? (fun u => u.collectiveId == d.collective.id) = some d.user := h3
  have hfid : (d.collective.id == s.nextId) = false :=
    beq_eq_false_iff_ne.mpr (hWF _ hC)
  have hcall : getGuestProfileFromToken s tokenValue (some email) name location fresh =
      createGuestProfile s (some email) name location fresh := by
    unfold getGuestProfileFromToken
    rw [hload]
    simp only [hunconf, Option.isSome_none, Bool.false_eq_true, if_false]
    rw [if_pos (by simp [strTruthy, hemail, bne_iff_ne, hdiff])]
  rw [hcall]
  unfold createGuestProfile
  rw [if_neg (by simp [strTruthy, hemail])]
  unfold runTransaction
  simp only []
  cases hfind : findUserByEmail s email with
  | none =>
    rw [createGuestProfileBody_eq_new s (some email) name location fresh hfind,
      finishGuestProfile_eq]
    refine ⟨List.mem_append_left _ hT, ?_, List.mem_append_left _ hU, ?_⟩
    · exact List.mem_map.mpr ⟨d.collective, List.mem_append_left _ hC,
        by simp [newGuestCollective, hfid]⟩
    · refine loadGuestToken_after_create s tokenValue d hload hWF _ _ rfl rfl _ _ _ ?_ ?_
      · rw [List.find?_append, h3']
        rfl
      · rw [List.find?_append, h1']
        rfl
  | some u =>
    cases hconf : u.confirmedAt.isSome with
    | true =>
      rw [createGuestProfileBody_eq_confirmed s (some email) name location fresh u hfind hconf]
      exact ⟨hT, hC, hU, hload⟩
    | false =>
      rw [createGuestProfileBody_eq_reuse s (some email) name location fresh u hfind hconf,
        finishGuestProfile_eq]
      refine ⟨List.mem_append_left _ hT, ?_, hU, ?_⟩
      · exact List.mem_map.mpr ⟨d.collective, List.mem_append_left _ hC,
          by simp [newGuestCollective, hfid]⟩
      · refine loadGuestToken_after_create s tokenValue d hload hWF _ _ rfl rfl _ _ _ h3' ?_
        rw [List.find?_append, h1']
        rfl

/-- Concrete instantiation of `getGuestProfileFromToken_fallthrough_frame`:
after abandoning token `"gt1"` for the fresh email `"x@y.z"`, the token
still resolves to the original profile. -/
theorem getGuestProfileFromToken_fallthrough_frame_witness :
    loadGuestToken sampleStore "gt1" = .ok ⟨uA, cA, tA⟩ ∧
    uA.confirmedAt = none ∧
    ("x@y.z" : String) ≠ "" ∧
    uA.email ≠ jsTrim "x@y.z" ∧
    (∀ c ∈ sampleStore.collectives, c.id ≠ sampleStore.nextId) ∧
    loadGuestToken
      (getGuestProfileFromToken sampleStore "gt1" (some "x@y.z") none none sampleFresh).2
      "gt1" = .ok ⟨uA, cA, tA⟩ := by
  refine ⟨rfl, rfl, by decide, by decide, by decide, ?_⟩
  exact (getGuestProfileFromToken_fallthrough_frame sampleStore "gt1" "x@y.z" none none
    sampleFresh ⟨uA, cA, tA⟩ rfl rfl (by decide) (by decide) (by decide)).2.2.2

end GuestAccounts
